import Mathlib

/-!
Shallow embedding of the metrics pipeline of `src/app.py` (an e-commerce
analytics dashboard).  Monetary amounts are modelled as rationals, timestamps
as (year, month, day) triples, pandas `to_period("M")` as an absolute month
index `year * 12 + month`.  Float NaN/inf behaviour of the z-score column is
modelled explicitly by the `FloatVal` type; `Real.sqrt` models the square root
inside the standard deviation.  Pandas `groupby` (which sorts its keys) is
modelled by sorting the deduplicated key list.
-/

/-- A calendar timestamp at day precision (the pipeline only ever observes the
year and month through `dt.to_period("M")`, `dt.year`, `dt.month`). -/
structure Date where
  year : ℤ
  month : ℤ
  day : ℤ
deriving DecidableEq

/-- `dt.to_period("M")` as an absolute month index. -/
def toPeriodM (d : Date) : ℤ := d.year * 12 + d.month

/-- Sorted distinct keys of a column, as produced by pandas `groupby` /
`unstack` (groupby sorts group keys by default). -/
def sortKeys {α : Type} [LinearOrder α] (l : List α) : List α :=
  List.insertionSort (fun a b => a ≤ b) l.dedup

/-- A row of `cleaned_transactions.csv`. -/
structure Transaction where
  transaction_id : ℕ
  customer_id : ℕ
  created_at : Date
  total_amount : ℚ
  payment_status : String
deriving DecidableEq

/-- A row of `cleaned_customers.csv`. -/
structure Customer where
  customer_id : ℕ
  signup_date : Date
deriving DecidableEq

/-- A row of `cleaned_sessions.csv`. -/
structure Session where
  customer_id : ℕ
  session_start : Date
  session_end : Date
deriving DecidableEq

/-- A row of `cleaned_support_tickets.csv`. -/
structure Ticket where
  customer_id : ℕ
  created_at : Date
  resolved_at : Date
deriving DecidableEq

/-! ## 1. Revenue trend analyzer (`app.py` lines 48-63) -/

/-- `transactions[transactions["payment_status"] == "paid"]`. -/
def paid_tx (txs : List Transaction) : List Transaction :=
  txs.filter (fun t => t.payment_status = "paid")

/-- `paid_tx["created_at"].dt.to_period("M")` for one row. -/
def transaction_month (t : Transaction) : ℤ := toPeriodM t.created_at

/-- `paid_tx.groupby("transaction_month")["total_amount"].sum()` followed by
`sort_values("transaction_month")`: one `(month, total)` row per month. -/
def monthly_rev (txs : List Transaction) : List (ℤ × ℚ) :=
  (sortKeys ((paid_tx txs).map transaction_month)).map (fun k =>
    (k, (((paid_tx txs).filter (fun t => transaction_month t = k)).map
      Transaction.total_amount).sum))

/-- The `total_amount` column of `monthly_rev`. -/
def rev_amounts (txs : List Transaction) : List ℚ :=
  (monthly_rev txs).map (fun r => r.2)

/-- `monthly_rev["total_amount"].mean()` (defined when at least one month
exists; the value is irrelevant otherwise since there are no rows). -/
def mean_rev (txs : List Transaction) : ℚ :=
  (rev_amounts txs).sum / ((rev_amounts txs).length : ℚ)

/-- The variance under `monthly_rev["total_amount"].std()`: pandas `std` uses
`ddof=1`, i.e. divisor `n - 1`, and returns NaN (here `none`) when `n ≤ 1`. -/
def var_rev (txs : List Transaction) : Option ℚ :=
  if (rev_amounts txs).length ≤ 1 then none
  else some (((rev_amounts txs).map (fun x => (x - mean_rev txs) ^ 2)).sum /
    (((rev_amounts txs).length : ℚ) - 1))

/-- `monthly_rev["total_amount"].std()`: square root of the `ddof=1`
variance, `none` modelling float NaN. -/
noncomputable def std_rev (txs : List Transaction) : Option ℝ :=
  (var_rev txs).map (fun v => Real.sqrt (v : ℝ))

/-- The float values a z-score cell can take: NaN, a signed infinity, or a
finite value. -/
inductive FloatVal where
  | nan : FloatVal
  | inf : Bool → FloatVal
  | val : ℝ → FloatVal

open Classical in
/-- IEEE-754 behaviour of `num / std` for the z-score: dividing by NaN gives
NaN, `0 / 0` gives NaN, `num / 0` with `num ≠ 0` gives a signed infinity. -/
noncomputable def zval (num : ℚ) (std : Option ℝ) : FloatVal :=
  match std with
  | none => FloatVal.nan
  | some s =>
      if s = 0 then (if num = 0 then FloatVal.nan else FloatVal.inf (decide (0 < num)))
      else FloatVal.val ((num : ℝ) / s)

/-- `monthly_rev["z_score"] = (monthly_rev["total_amount"] - mean_rev) / std_rev`. -/
noncomputable def z_scores (txs : List Transaction) : List FloatVal :=
  (monthly_rev txs).map (fun r => zval (r.2 - mean_rev txs) (std_rev txs))

open Classical in
/-- `abs(z) > 2` under float comparison semantics: NaN compares false,
infinities compare true. -/
noncomputable def is_anomaly : FloatVal → Bool
  | FloatVal.nan => false
  | FloatVal.inf _ => true
  | FloatVal.val x => decide (2 < |x|)

/-- `np.where(abs(monthly_rev["z_score"]) > 2, "Anomaly", "Normal")`. -/
noncomputable def anomaly_labels (txs : List Transaction) : List String :=
  (z_scores txs).map (fun z => if is_anomaly z then "Anomaly" else "Normal")

/-! ## 2. Cohort retention analyzer (`app.py` lines 100-125) -/

/-- `customers["signup_date"].dt.to_period("M")` for one row. -/
def cohort_month (c : Customer) : ℤ := toPeriodM c.signup_date

/-- `sessions["session_start"].dt.to_period("M")` for one row. -/
def activity_month (s : Session) : ℤ := toPeriodM s.session_start

/-- `pd.merge(customers, sessions, on="customer_id", how="left")` with the
`month_number` column: one row per matching (customer, session) pair, plus a
row with a null month number (`none`) for a customer with no sessions. -/
def merged (cu : List Customer) (se : List Session) : List (ℕ × ℤ × Option ℤ) :=
  cu.flatMap (fun c =>
    if (se.filter (fun s => s.customer_id = c.customer_id)).isEmpty then
      [(c.customer_id, cohort_month c, none)]
    else (se.filter (fun s => s.customer_id = c.customer_id)).map (fun s =>
      (c.customer_id, cohort_month c, some (activity_month s - cohort_month c))))

/-- `(merged["month_number"] >= 0) & (merged["month_number"] <= 5)`; a null
month number (float NaN) compares false. -/
def in_window : Option ℤ → Bool
  | some n => decide (0 ≤ n ∧ n ≤ 5)
  | none => false

/-- `merged = merged[(merged["month_number"] >= 0) & (merged["month_number"] <= 5)]`,
with the surviving month numbers made integral. -/
def window_rows (cu : List Customer) (se : List Session) : List (ℕ × ℤ × ℤ) :=
  ((merged cu se).filter (fun r => in_window r.2.2)).map (fun r =>
    (r.1, r.2.1, r.2.2.getD 0))

/-- The row index of the retention matrix: the distinct cohort months of the
filtered frame, sorted. -/
def cohort_index (cu : List Customer) (se : List Session) : List ℤ :=
  sortKeys ((window_rows cu se).map (fun r => r.2.1))

/-- The column index of the retention matrix: the distinct month numbers of
the filtered frame (`unstack` creates only observed columns), sorted. -/
def offset_cols (cu : List Customer) (se : List Session) : List ℤ :=
  sortKeys ((window_rows cu se).map (fun r => r.2.2))

/-- `cohort_size = merged.groupby("cohort_month")["customer_id"].nunique()`,
computed on the already-filtered frame. -/
def cohort_size (cu : List Customer) (se : List Session) (c : ℤ) : ℕ :=
  (((window_rows cu se).filter (fun r => r.2.1 = c)).map (fun r => r.1)).toFinset.card

/-- One cell of `merged.groupby(["cohort_month", "month_number"])["customer_id"]
.nunique().unstack(fill_value=0)`: distinct active customers of cohort `c` at
offset `m` (0 when the combination is absent). -/
def active_count (cu : List Customer) (se : List Session) (c m : ℤ) : ℕ :=
  (((window_rows cu se).filter (fun r => r.2.1 = c ∧ r.2.2 = m)).map
    (fun r => r.1)).toFinset.card

/-- Round-half-to-even to an integer, as numpy/pandas `round` does. -/
def roundHalfEven (q : ℚ) : ℤ :=
  if q - ⌊q⌋ = 1 / 2 then (if Even ⌊q⌋ then ⌊q⌋ else ⌊q⌋ + 1) else round q

/-- Pandas `.round(3)`. -/
def round3 (q : ℚ) : ℚ := ((roundHalfEven (q * 1000) : ℤ) : ℚ) / 1000

/-- One cell of `retention_rate = retention.divide(cohort_size, axis=0)
.round(3) * 100`: defined (`some`) exactly for `(c, m)` in the matrix's
index × columns. -/
def retention_rate (cu : List Customer) (se : List Session) (c m : ℤ) : Option ℚ :=
  if c ∈ cohort_index cu se ∧ m ∈ offset_cols cu se then
    some (round3 ((active_count cu se c m : ℚ) / (cohort_size cu se c : ℚ)) * 100)
  else none

/-! ## 3. Support/payment correlation analyzer (`app.py` lines 148-160) -/

/-- `ticket_counts = tickets.groupby("customer_id").size().reset_index(...)`:
one `(customer_id, ticket_count)` row per distinct ticketed customer. -/
def ticket_counts (tk : List Ticket) : List (ℕ × ℕ) :=
  (sortKeys (tk.map Ticket.customer_id)).map (fun c =>
    (c, (tk.filter (fun t => t.customer_id = c)).length))

/-- The columns of `payment_summary`: the distinct `payment_status` values of
the transactions table (`unstack` creates one column per observed status). -/
def status_cols (txs : List Transaction) : List String :=
  sortKeys (txs.map Transaction.payment_status)

/-- The index of `payment_summary`: the distinct customers of the
transactions table. -/
def tx_customers (txs : List Transaction) : List ℕ :=
  sortKeys (txs.map Transaction.customer_id)

/-- One cell of `transactions.groupby(["customer_id", "payment_status"])
["transaction_id"].count().unstack(fill_value=0)`. -/
def payment_summary_cell (txs : List Transaction) (c : ℕ) (s : String) : ℕ :=
  (txs.filter (fun t => t.customer_id = c ∧ t.payment_status = s)).length

/-- A row of the `combined` output table. -/
structure CombinedRow where
  customer_id : ℕ
  ticket_count : ℕ
  status_counts : List (String × ℕ)
deriving DecidableEq

/-- `combined = pd.merge(ticket_counts, payment_summary, on="customer_id",
how="left")` followed by `combined.fillna(0, inplace=True)`: one row per
ticketed customer; a join miss leaves every status count at 0. -/
def combined (tk : List Ticket) (txs : List Transaction) : List CombinedRow :=
  (ticket_counts tk).map (fun p =>
    ⟨p.1, p.2, (status_cols txs).map (fun s =>
      (s, if p.1 ∈ tx_customers txs then payment_summary_cell txs p.1 s else 0))⟩)

/-! ## In-place mutation of the loaded frames (`app.py` lines 100-101)

`customers["cohort_month"] = ...` and `sessions["activity_month"] = ...`
assign new columns to the loaded dataframes in place.  To observe this at the
table level, a dataframe row is modelled as an association list from column
names to values. -/

/-- A value held in a dataframe cell. -/
inductive PVal where
  | pint : ℤ → PVal
  | pdate : Date → PVal
  | pmonth : ℤ → PVal
deriving DecidableEq

/-- A dataframe row: column names paired with values. -/
abbrev PRow := List (String × PVal)

/-- Reading a named column of a row (loaded rows always carry their schema's
columns, so the default is never observed on well-formed tables). -/
def lookupCol (r : PRow) (k : String) : PVal :=
  ((r.find? (fun kv => kv.1 = k)).map Prod.snd).getD (PVal.pint 0)

/-- `.dt.to_period("M").dt.to_timestamp()` applied to a cell (the loader
guarantees the column is date-typed). -/
def monthOfVal : PVal → PVal
  | PVal.pdate d => PVal.pmonth (toPeriodM d)
  | v => v

/-- `customers["cohort_month"] = customers["signup_date"].dt.to_period("M")...`:
the state of the `customers` table after line 100. -/
def withCohortMonth (tbl : List PRow) : List PRow :=
  tbl.map (fun r => r ++ [("cohort_month", monthOfVal (lookupCol r "signup_date"))])

/-- `sessions["activity_month"] = sessions["session_start"].dt.to_period("M")...`:
the state of the `sessions` table after line 101. -/
def withActivityMonth (tbl : List PRow) : List PRow :=
  tbl.map (fun r => r ++ [("activity_month", monthOfVal (lookupCol r "session_start"))])

/-! ## Definitions following the specification's words (for comparison) -/

/-- Modelled from the spec: the cohort denominator the spec describes,
"the cohort's total distinct signed-up customers … computed independently of
sessions". -/
def spec_signup_cohort_size (cu : List Customer) (c : ℤ) : ℕ :=
  ((cu.filter (fun x => cohort_month x = c)).map Customer.customer_id).toFinset.card

/-- Whether a customer has at least one session whose month offset from their
cohort month lies in 0..5. -/
def has_window_session (se : List Session) (x : Customer) : Bool :=
  se.any (fun s => s.customer_id = x.customer_id ∧
    0 ≤ activity_month s - cohort_month x ∧ activity_month s - cohort_month x ≤ 5)

/-- The distinct customers of cohort `c` having at least one session at
offset 0..5 (the denominator the code actually uses, stated directly). -/
def returning_cohort_customers (cu : List Customer) (se : List Session) (c : ℤ) : Finset ℕ :=
  ((cu.filter (fun x => cohort_month x = c ∧ has_window_session se x)).map
    Customer.customer_id).toFinset

/-- Modelled from the spec: z-scores with the population mean and population
standard deviation (divisor `n`) of the monthly totals, as the spec claims. -/
noncomputable def spec_z_scores_pop (l : List ℚ) : List FloatVal :=
  l.map (fun a => zval (a - l.sum / (l.length : ℚ))
    (if l.length = 0 then none
     else some (Real.sqrt (((l.map (fun x => (x - l.sum / (l.length : ℚ)) ^ 2)).sum /
       (l.length : ℚ) : ℚ) : ℝ))))

/-- Z-scores with the sample standard deviation (divisor `n - 1`, NaN when
`n ≤ 1`) of the monthly totals: the amended description of the code. -/
noncomputable def spec_z_scores_sample (l : List ℚ) : List FloatVal :=
  l.map (fun a => zval (a - l.sum / (l.length : ℚ))
    (if l.length ≤ 1 then none
     else some (Real.sqrt (((l.map (fun x => (x - l.sum / (l.length : ℚ)) ^ 2)).sum /
       ((l.length : ℚ) - 1) : ℚ) : ℝ))))

/-! ## Concrete input tables used by counterexamples and witnesses -/

/-- One paid transaction, hence exactly one month of revenue. -/
def txC4 : List Transaction := [⟨1, 1, ⟨2023, 1, 15⟩, 100, "paid"⟩]

/-- Two months with identical totals, hence standard deviation zero. -/
def txC5 : List Transaction :=
  [⟨1, 1, ⟨2023, 1, 15⟩, 100, "paid"⟩, ⟨2, 2, ⟨2023, 2, 10⟩, 100, "paid"⟩]

/-- Two months with totals 100 and 300. -/
def txC6 : List Transaction :=
  [⟨1, 1, ⟨2023, 1, 15⟩, 100, "paid"⟩, ⟨2, 2, ⟨2023, 2, 10⟩, 300, "paid"⟩]

/-- Two customers sign up in 2023-01; only the first ever has a session. -/
def cuC1 : List Customer := [⟨1, ⟨2023, 1, 5⟩⟩, ⟨2, ⟨2023, 1, 20⟩⟩]

/-- A single session of customer 1 in the signup month. -/
def seC1 : List Session := [⟨1, ⟨2023, 1, 10⟩, ⟨2023, 1, 11⟩⟩]

/-- One customer signing up in 2023-01. -/
def cuC3 : List Customer := [⟨1, ⟨2023, 1, 5⟩⟩]

/-- One session of that customer at month offset 0 (so offset 3 occurs for no
cohort at all). -/
def seC3 : List Session := [⟨1, ⟨2023, 1, 10⟩, ⟨2023, 1, 10⟩⟩]

/-- One ticket, raised by customer 2. -/
def tkC2 : List Ticket := [⟨2, ⟨2023, 3, 1⟩, ⟨2023, 3, 2⟩⟩]

/-- One paid transaction of customer 1 (who has no tickets). -/
def txC2 : List Transaction := [⟨1, 1, ⟨2023, 1, 15⟩, 50, "paid"⟩]

/-- One ticket, raised by customer 7. -/
def tkC10 : List Ticket := [⟨7, ⟨2023, 3, 1⟩, ⟨2023, 3, 2⟩⟩]

/-- An empty transactions table. -/
def txC10 : List Transaction := []

/-- The loaded `customers` table of the mutation counterexample, in the
column-level view. -/
def customersC7 : List PRow :=
  [[("customer_id", PVal.pint 1), ("signup_date", PVal.pdate ⟨2023, 1, 5⟩)]]

/-! ## General helper lemmas -/

lemma mem_sortKeys {α : Type} [LinearOrder α] (l : List α) (a : α) :
    a ∈ sortKeys l ↔ a ∈ l := by
  rw [sortKeys, (List.perm_insertionSort _ l.dedup).mem_iff]
  exact List.mem_dedup

lemma sum_map_add (g h : ℤ → ℚ) (ks : List ℤ) :
    (ks.map (fun k => g k + h k)).sum = (ks.map g).sum + (ks.map h).sum := by
  induction ks with
  | nil => simp
  | cons k ks ih => simp [ih]; ring

lemma sum_ite_of_not_mem (a : ℤ) (v : ℚ) (ks : List ℤ) (h : a ∉ ks) :
    (ks.map (fun k => if a = k then v else 0)).sum = 0 := by
  induction ks with
  | nil => simp
  | cons k ks ih =>
      rw [List.mem_cons, not_or] at h
      simp [h.1, ih h.2]

lemma sum_ite_of_mem (a : ℤ) (v : ℚ) (ks : List ℤ) (hnd : ks.Nodup) (h : a ∈ ks) :
    (ks.map (fun k => if a = k then v else 0)).sum = v := by
  induction ks with
  | nil => cases h
  | cons k ks ih =>
      rw [List.nodup_cons] at hnd
      rcases List.mem_cons.mp h with h1 | h1
      · subst h1
        simp [sum_ite_of_not_mem a v ks hnd.1]
      · have hak : ¬ a = k := fun hh => hnd.1 (hh ▸ h1)
        simp [hak, ih hnd.2 h1]

lemma sum_filter_key {α : Type} (key : α → ℤ) (f : α → ℚ) (l : List α) (ks : List ℤ)
    (hnd : ks.Nodup) (hmem : ∀ x ∈ l, key x ∈ ks) :
    (ks.map (fun k => ((l.filter (fun x => key x = k)).map f).sum)).sum =
      (l.map f).sum := by
  induction l with
  | nil => simp
  | cons a l ih =>
      have hka : key a ∈ ks := hmem a (List.mem_cons_self a l)
      have hmem' : ∀ x ∈ l, key x ∈ ks := fun x hx => hmem x (List.mem_cons_of_mem a hx)
      have hsplit : ∀ k : ℤ, (((a :: l).filter (fun x => key x = k)).map f).sum =
          (if key a = k then f a else 0) + ((l.filter (fun x => key x = k)).map f).sum := by
        intro k
        by_cases hak : key a = k <;> simp [List.filter_cons, hak]
      calc (ks.map (fun k => (((a :: l).filter (fun x => key x = k)).map f).sum)).sum
          = (ks.map (fun k => (if key a = k then f a else 0) +
              ((l.filter (fun x => key x = k)).map f).sum)).sum := by
            congr 1; exact List.map_congr_left (fun k _ => hsplit k)
        _ = (ks.map (fun k => if key a = k then f a else 0)).sum +
              (ks.map (fun k => ((l.filter (fun x => key x = k)).map f).sum)).sum :=
            sum_map_add _ _ ks
        _ = f a + (l.map f).sum := by
            rw [sum_ite_of_mem (key a) (f a) ks hnd hka, ih hmem']
        _ = ((a :: l).map f).sum := by simp

lemma roundHalfEven_nonneg (q : ℚ) (h : 0 ≤ q) : 0 ≤ roundHalfEven q := by
  have h0 : (0 : ℤ) ≤ ⌊q⌋ := Int.floor_nonneg.mpr h
  rw [roundHalfEven]
  split
  · split
    · exact h0
    · omega
  · rw [round_eq]
    exact Int.floor_nonneg.mpr (by linarith)

lemma roundHalfEven_le (q : ℚ) (n : ℤ) (h : q ≤ n) : roundHalfEven q ≤ n := by
  rw [roundHalfEven]
  split
  · rename_i hhalf
    have hfl : (⌊q⌋ : ℚ) = q - 1 / 2 := by linarith
    have hlt : ⌊q⌋ < n := by
      have : (⌊q⌋ : ℚ) < (n : ℚ) := by rw [hfl]; linarith
      exact_mod_cast this
    split
    · omega
    · omega
  · rw [round_eq]
    rw [Int.floor_le_iff]
    linarith

lemma round3_nonneg (q : ℚ) (h : 0 ≤ q) : 0 ≤ round3 q := by
  rw [round3]
  apply div_nonneg _ (by norm_num)
  exact_mod_cast roundHalfEven_nonneg _ (by positivity)

lemma round3_le_one (q : ℚ) (h : q ≤ 1) : round3 q ≤ 1 := by
  rw [round3, div_le_one (by norm_num)]
  exact_mod_cast roundHalfEven_le (q * 1000) 1000 (by push_cast; linarith)

lemma round3_zero : round3 0 = 0 := by
  rw [round3, roundHalfEven]
  norm_num

lemma mem_window_rows (cu : List Customer) (se : List Session) (r : ℕ × ℤ × ℤ) :
    r ∈ window_rows cu se ↔
      ∃ c ∈ cu, ∃ s ∈ se, s.customer_id = c.customer_id ∧
        r = (c.customer_id, cohort_month c, activity_month s - cohort_month c) ∧
        0 ≤ activity_month s - cohort_month c ∧ activity_month s - cohort_month c ≤ 5 := by
  constructor
  · intro hr
    rw [window_rows] at hr
    obtain ⟨r', hr', rfl⟩ := List.mem_map.mp hr
    obtain ⟨hr'm, hw⟩ := List.mem_filter.mp hr'
    rw [merged] at hr'm
    obtain ⟨c, hc, hin⟩ := List.mem_flatMap.mp hr'm
    by_cases hE : (se.filter (fun s => s.customer_id = c.customer_id)).isEmpty
    · rw [if_pos hE] at hin
      have : r' = (c.customer_id, cohort_month c, none) := List.mem_singleton.mp hin
      subst this
      simp [in_window] at hw
    · rw [if_neg hE] at hin
      obtain ⟨s, hs, rfl⟩ := List.mem_map.mp hin
      obtain ⟨hse, hmatch⟩ := List.mem_filter.mp hs
      rw [in_window] at hw
      have hw' := of_decide_eq_true hw
      exact ⟨c, hc, s, hse, of_decide_eq_true hmatch, rfl, hw'.1, hw'.2⟩
  · intro hex
    obtain ⟨c, hc, s, hse, hmatch, hr, h0, h5⟩ := hex
    have hsm : s ∈ se.filter (fun s' => s'.customer_id = c.customer_id) :=
      List.mem_filter.mpr ⟨hse, decide_eq_true hmatch⟩
    have hE : ¬ (se.filter (fun s' => s'.customer_id = c.customer_id)).isEmpty := by
      intro hE
      rw [List.isEmpty_iff.mp hE] at hsm
      cases hsm
    have hmem : (c.customer_id, cohort_month c,
        some (activity_month s - cohort_month c)) ∈ merged cu se := by
      rw [merged]
      exact List.mem_flatMap.mpr ⟨c, hc, by
        rw [if_neg hE]
        exact List.mem_map_of_mem _ hsm⟩
    rw [window_rows]
    refine List.mem_map.mpr ⟨(c.customer_id, cohort_month c,
      some (activity_month s - cohort_month c)), List.mem_filter.mpr ⟨hmem, ?_⟩, ?_⟩
    · rw [in_window]
      exact decide_eq_true ⟨h0, h5⟩
    · rw [hr]
      rfl

lemma active_le_size (cu : List Customer) (se : List Session) (c m : ℤ) :
    active_count cu se c m ≤ cohort_size cu se c := by
  apply Finset.card_le_card
  intro a ha
  rw [List.mem_toFinset, List.mem_map] at ha ⊢
  obtain ⟨r, hr, rfl⟩ := ha
  obtain ⟨hrw, hp⟩ := List.mem_filter.mp hr
  refine ⟨r, List.mem_filter.mpr ⟨hrw, ?_⟩, rfl⟩
  exact decide_eq_true (of_decide_eq_true hp).1

lemma one_le_cohort_size (cu : List Customer) (se : List Session) (c : ℤ)
    (hc : c ∈ cohort_index cu se) : 1 ≤ cohort_size cu se c := by
  rw [cohort_index, mem_sortKeys, List.mem_map] at hc
  obtain ⟨r, hr, hrc⟩ := hc
  rw [cohort_size, Nat.one_le_iff_ne_zero, ← Nat.pos_iff_ne_zero, Finset.card_pos]
  exact ⟨r.1, List.mem_toFinset.mpr (List.mem_map.mpr
    ⟨r, List.mem_filter.mpr ⟨hr, decide_eq_true hrc⟩, rfl⟩)⟩

/-! ## Claim C1: what the cohort denominator actually counts -/

/-- C1 counterexample: with two customers signing up in 2023-01 (absolute
month 24277) of whom only customer 1 ever has a session, the denominator the
code uses (`cohort_size`, computed on the offset-filtered merged frame) is 1,
not the 2 distinct signed-up customers the claim requires, and the retention
value at offset 0 is accordingly 100 rather than 50. -/
theorem C1_counterexample :
    cohort_size cuC1 seC1 24277 = 1 ∧ spec_signup_cohort_size cuC1 24277 = 2 ∧
      retention_rate cuC1 seC1 24277 0 = some 100 := by
  refine ⟨by with_unfolding_all rfl, by with_unfolding_all rfl, by with_unfolding_all rfl⟩

/-- C1 amended: the denominator of every retention percentage for cohort
month `c` equals the number of distinct customers who signed up in `c` AND
have at least one session at month offset 0..5 — customers who never
returned within the window are excluded from the denominator. -/
theorem C1_amended (cu : List Customer) (se : List Session) (c : ℤ) :
    cohort_size cu se c = (returning_cohort_customers cu se c).card := by
  rw [cohort_size, returning_cohort_customers]
  congr 1
  apply Finset.ext
  intro a
  simp only [List.mem_toFinset, List.mem_map]
  constructor
  · rintro ⟨r, hr, rfl⟩
    obtain ⟨hrw, hrc⟩ := List.mem_filter.mp hr
    obtain ⟨cust, hcu, s, hs, hm, hreq, h0, h5⟩ := (mem_window_rows cu se r).mp hrw
    subst hreq
    have hc' : cohort_month cust = c := of_decide_eq_true hrc
    refine ⟨cust, List.mem_filter.mpr ⟨hcu, decide_eq_true ⟨hc', ?_⟩⟩, rfl⟩
    rw [has_window_session]
    exact List.any_eq_true.mpr ⟨s, hs, decide_eq_true ⟨hm, h0, h5⟩⟩
  · rintro ⟨cust, hcust, rfl⟩
    obtain ⟨hcu, hpred⟩ := List.mem_filter.mp hcust
    obtain ⟨hcm, hwin⟩ := of_decide_eq_true hpred
    rw [has_window_session] at hwin
    obtain ⟨s, hs, hsp⟩ := List.any_eq_true.mp hwin
    obtain ⟨hm, h0, h5⟩ := of_decide_eq_true hsp
    refine ⟨(cust.customer_id, cohort_month cust, activity_month s - cohort_month cust),
      List.mem_filter.mpr ⟨?_, decide_eq_true hcm⟩, rfl⟩
    exact (mem_window_rows cu se _).mpr ⟨cust, hcu, s, hs, hm, rfl, h0, h5⟩

/-! ## Claims C3 and C9: shape and bounds of the retention matrix -/

/-- C3 counterexample: cohort month 24277 (2023-01) has a customer, and the
offset 3 lies in 0..5, yet the retention matrix has no cell there — no
cohort has any session at offset 3, so `unstack` never creates column 3. -/
theorem C3_counterexample :
    (cuC3.filter (fun x => cohort_month x = 24277)).length = 1 ∧
      retention_rate cuC3 seC3 24277 3 = none := by
  exact ⟨by with_unfolding_all rfl, by with_unfolding_all rfl⟩

/-- C3 amended: a cell value exists exactly for every cohort month in the
matrix's row index (cohorts with at least one session at offset 0..5) and
every offset in its column index (offsets observed for at least one cohort);
within that grid an absent combination yields the value 0, not a missing
cell. -/
theorem C3_amended (cu : List Customer) (se : List Session) (c m : ℤ)
    (hc : c ∈ cohort_index cu se) (hm : m ∈ offset_cols cu se) :
    ∃ v, retention_rate cu se c m = some v ∧ (active_count cu se c m = 0 → v = 0) := by
  refine ⟨round3 ((active_count cu se c m : ℚ) / (cohort_size cu se c : ℚ)) * 100, ?_, ?_⟩
  · rw [retention_rate, if_pos ⟨hc, hm⟩]
  · intro h0
    rw [h0]
    norm_num [round3_zero]

/-- C3 amended, witness at a concrete input. -/
theorem C3_amended_witness :
    ∃ v, retention_rate cuC3 seC3 24277 0 = some v ∧
      (active_count cuC3 seC3 24277 0 = 0 → v = 0) :=
  C3_amended cuC3 seC3 24277 0 (by with_unfolding_all decide) (by with_unfolding_all decide)

/-- C9: every cell of the retention matrix is a percentage between 0 and 100
inclusive (the per-cohort distinct active customers never exceed the
denominator, which counts the same cohort's distinct in-window customers). -/
theorem C9_theorem (cu : List Customer) (se : List Session) (c m : ℤ) (v : ℚ)
    (h : retention_rate cu se c m = some v) : 0 ≤ v ∧ v ≤ 100 := by
  rw [retention_rate] at h
  split at h
  · rename_i hcm
    injection h with h
    subst h
    have hS : 1 ≤ cohort_size cu se c := one_le_cohort_size cu se c hcm.1
    have hSpos : (0 : ℚ) < (cohort_size cu se c : ℚ) := by exact_mod_cast hS
    have hq0 : 0 ≤ (active_count cu se c m : ℚ) / (cohort_size cu se c : ℚ) :=
      div_nonneg (Nat.cast_nonneg _) (Nat.cast_nonneg _)
    have hq1 : (active_count cu se c m : ℚ) / (cohort_size cu se c : ℚ) ≤ 1 := by
      rw [div_le_one hSpos]
      exact_mod_cast active_le_size cu se c m
    constructor
    · have h1 := round3_nonneg _ hq0
      nlinarith
    · have h1 := round3_le_one _ hq1
      nlinarith
  · cases h

/-- C9, witness at a concrete input. -/
theorem C9_witness : (0 : ℚ) ≤ 100 ∧ (100 : ℚ) ≤ 100 :=
  C9_theorem cuC3 seC3 24277 0 100 (by with_unfolding_all rfl)

/-! ## Claims C2 and C10: the customers appearing in the correlation output -/

lemma combined_map_cid (tk : List Ticket) (txs : List Transaction) :
    (combined tk txs).map CombinedRow.customer_id = sortKeys (tk.map Ticket.customer_id) := by
  rw [combined, ticket_counts, List.map_map, List.map_map]
  exact List.map_id _

/-- C2 counterexample: customer 1 appears in the transactions table but has
no support ticket; the left join on `ticket_counts` drops them, so the output
contains only the ticketed customer 2 and no row for customer 1. -/
theorem C2_counterexample :
    1 ∈ txC2.map Transaction.customer_id ∧
      1 ∉ (combined tkC2 txC2).map CombinedRow.customer_id ∧
      (combined tkC2 txC2).map CombinedRow.customer_id = [2] := by
  refine ⟨by with_unfolding_all decide, by with_unfolding_all decide,
    by with_unfolding_all rfl⟩

/-- C2 amended: every customer of the support-tickets table appears as a row
of the output; a ticketed customer absent from the transactions table gets 0
in every payment-status column; and the output contains only ticketed
customers — a customer present in transactions but absent from tickets is
dropped, not kept with `ticket_count = 0`. -/
theorem C2_amended (tk : List Ticket) (txs : List Transaction) :
    (∀ c, c ∈ tk.map Ticket.customer_id →
      c ∈ (combined tk txs).map CombinedRow.customer_id) ∧
    (∀ r, r ∈ combined tk txs → r.customer_id ∉ txs.map Transaction.customer_id →
      ∀ p, p ∈ r.status_counts → p.2 = 0) ∧
    (∀ r, r ∈ combined tk txs → r.customer_id ∈ tk.map Ticket.customer_id) := by
  refine ⟨?_, ?_, ?_⟩
  · intro c hc
    rw [combined_map_cid, mem_sortKeys]
    exact hc
  · intro r hr hno p hp
    rw [combined] at hr
    obtain ⟨q, hq, rfl⟩ := List.mem_map.mp hr
    obtain ⟨s, hs, rfl⟩ := List.mem_map.mp hp
    have hnot : q.1 ∉ tx_customers txs := by
      intro hmem
      rw [tx_customers, mem_sortKeys] at hmem
      exact hno hmem
    simp [hnot]
  · intro r hr
    have hmem : r.customer_id ∈ (combined tk txs).map CombinedRow.customer_id :=
      List.mem_map_of_mem _ hr
    rw [combined_map_cid, mem_sortKeys] at hmem
    exact hmem

/-- C2 amended, witness at a concrete input. -/
theorem C2_amended_witness : 2 ∈ (combined tkC2 txC2).map CombinedRow.customer_id :=
  (C2_amended tkC2 txC2).1 2 (by with_unfolding_all decide)

/-- C10: every output row of the correlation analyzer has `ticket_count ≥ 1`
(so `ticket_count = 0` can never occur), and the customers appearing in the
output are exactly the distinct customers of the support-tickets table. -/
theorem C10_theorem (tk : List Ticket) (txs : List Transaction) (r : CombinedRow)
    (hr : r ∈ combined tk txs) :
    1 ≤ r.ticket_count ∧
      (combined tk txs).map CombinedRow.customer_id = sortKeys (tk.map Ticket.customer_id) := by
  refine ⟨?_, combined_map_cid tk txs⟩
  rw [combined] at hr
  obtain ⟨p, hp, rfl⟩ := List.mem_map.mp hr
  rw [ticket_counts] at hp
  obtain ⟨c, hc, rfl⟩ := List.mem_map.mp hp
  rw [mem_sortKeys] at hc
  obtain ⟨t, ht, rfl⟩ := List.mem_map.mp hc
  have hmem : t ∈ tk.filter (fun x => x.customer_id = t.customer_id) :=
    List.mem_filter.mpr ⟨ht, decide_eq_true rfl⟩
  have hpos : 0 < (tk.filter (fun x => x.customer_id = t.customer_id)).length :=
    List.length_pos.mpr (List.ne_nil_of_mem hmem)
  exact hpos

/-- C10, witness at a concrete input. -/
theorem C10_witness :
    1 ≤ (⟨7, 1, []⟩ : CombinedRow).ticket_count ∧
      (combined tkC10 txC10).map CombinedRow.customer_id =
        sortKeys (tkC10.map Ticket.customer_id) :=
  C10_theorem tkC10 txC10 ⟨7, 1, []⟩ (by with_unfolding_all decide)

/-! ## Claim C7: the analyzers' effect on the loaded input tables -/

set_option maxRecDepth 4000 in
/-- C7 counterexample: after line 100 of `app.py` runs, the loaded
`customers` table is no longer equal to its loaded state — a `cohort_month`
column has been added in place. -/
theorem C7_counterexample : withCohortMonth customersC7 ≠ customersC7 := by
  with_unfolding_all decide

/-- C7 amended: the cohort retention analyzer does mutate the loaded
`customers` and `sessions` tables (it appends a `cohort_month` resp.
`activity_month` column in place), but this is the only mutation: dropping
the appended column recovers every input table exactly — no row is added or
removed and no pre-existing value is modified.  (The revenue analyzer works
on a `.copy()` of `transactions` and the correlation analyzer only builds
new frames.) -/
theorem C7_amended :
    (∀ tbl : List PRow, (withCohortMonth tbl).map List.dropLast = tbl) ∧
    (∀ tbl : List PRow, (withActivityMonth tbl).map List.dropLast = tbl) := by
  constructor <;> intro tbl <;>
    simp [withCohortMonth, withActivityMonth, List.map_map, Function.comp_def]

/-! ## Claim C8: monthly grouping conserves the paid-revenue total -/

/-- C8: the sum of `total_amount` over the rows of the revenue-trend output
equals the sum of `total_amount` over the source transactions whose
`payment_status` is `"paid"`. -/
theorem C8_theorem (txs : List Transaction) :
    ((monthly_rev txs).map (fun r => r.2)).sum =
      ((paid_tx txs).map Transaction.total_amount).sum := by
  rw [monthly_rev, List.map_map]
  have hperm : List.Perm (sortKeys ((paid_tx txs).map transaction_month))
      (((paid_tx txs).map transaction_month).dedup) :=
    List.perm_insertionSort _ _
  have hperm2 := (hperm.map (fun k =>
    (((paid_tx txs).filter (fun t => transaction_month t = k)).map
      Transaction.total_amount).sum)).sum_eq
  calc ((sortKeys ((paid_tx txs).map transaction_month)).map
        ((fun r : ℤ × ℚ => r.2) ∘ (fun k => (k,
          (((paid_tx txs).filter (fun t => transaction_month t = k)).map
            Transaction.total_amount).sum)))).sum
      = ((sortKeys ((paid_tx txs).map transaction_month)).map (fun k =>
          (((paid_tx txs).filter (fun t => transaction_month t = k)).map
            Transaction.total_amount).sum)).sum := rfl
    _ = ((((paid_tx txs).map transaction_month).dedup).map (fun k =>
          (((paid_tx txs).filter (fun t => transaction_month t = k)).map
            Transaction.total_amount).sum)).sum := hperm2
    _ = ((paid_tx txs).map Transaction.total_amount).sum := by
        apply sum_filter_key
        · exact ((paid_tx txs).map transaction_month).nodup_dedup
        · intro x hx
          exact List.mem_dedup.mpr (List.mem_map_of_mem transaction_month hx)

/-! ## Claims C4, C5, C6: the z-score column -/

lemma zval_none (num : ℚ) : zval num none = FloatVal.nan := rfl

lemma zval_zero_zero : zval 0 (some 0) = FloatVal.nan := by
  simp [zval]

lemma zval_val (num : ℚ) (s : ℝ) (hs : s ≠ 0) :
    zval num (some s) = FloatVal.val ((num : ℝ) / s) := by
  simp only [zval]
  rw [if_neg hs]

lemma monthly_rev_txC4 : monthly_rev txC4 = [(24277, 100)] := by with_unfolding_all rfl

lemma var_rev_txC4 : var_rev txC4 = none := by with_unfolding_all rfl

lemma std_rev_txC4 : std_rev txC4 = none := by rw [std_rev, var_rev_txC4]; rfl

lemma monthly_rev_txC5 : monthly_rev txC5 = [(24277, 100), (24278, 100)] := by
  with_unfolding_all rfl

lemma mean_rev_txC5 : mean_rev txC5 = 100 := by with_unfolding_all rfl

lemma var_rev_txC5 : var_rev txC5 = some 0 := by with_unfolding_all rfl

lemma std_rev_txC5 : std_rev txC5 = some 0 := by
  rw [std_rev, var_rev_txC5]
  simp

lemma monthly_rev_txC6 : monthly_rev txC6 = [(24277, 100), (24278, 300)] := by
  with_unfolding_all rfl

lemma mean_rev_txC6 : mean_rev txC6 = 200 := by with_unfolding_all rfl

lemma rev_amounts_txC6 : rev_amounts txC6 = [100, 300] := by with_unfolding_all rfl

lemma var_rev_txC6 : var_rev txC6 = some 20000 := by with_unfolding_all rfl

lemma std_rev_txC6 : std_rev txC6 = some (Real.sqrt 20000) := by
  rw [std_rev, var_rev_txC6]
  norm_num

/-- C4: one month of paid revenue.  `std` (pandas `ddof=1`) is undefined for a
single value, so the z-score of the single output row is NaN — an undefined
numeric value in the output — while the anomaly label is "Normal" only
because `NaN > 2` is false. -/
theorem C4_theorem :
    z_scores txC4 = [FloatVal.nan] ∧ anomaly_labels txC4 = ["Normal"] := by
  have hz : z_scores txC4 = [FloatVal.nan] := by
    rw [z_scores, monthly_rev_txC4, std_rev_txC4]
    rfl
  refine ⟨hz, ?_⟩
  rw [anomaly_labels, hz]
  rfl

/-- C5: two months with identical totals.  The standard deviation is exactly
zero, and the code divides by it: both z-scores are NaN (0/0), silently
passed downstream. -/
theorem C5_theorem : z_scores txC5 = [FloatVal.nan, FloatVal.nan] := by
  rw [z_scores, monthly_rev_txC5, std_rev_txC5, List.map_cons, List.map_cons, List.map_nil]
  rw [mean_rev_txC5]
  have h : (100 : ℚ) - 100 = 0 := by norm_num
  rw [h, zval_zero_zero]

lemma sqrt20000_ne_zero : Real.sqrt 20000 ≠ 0 := by
  intro h
  have h2 := Real.sqrt_eq_zero'.mp h
  norm_num at h2

lemma sqrt10000_ne_zero : Real.sqrt 10000 ≠ 0 := by
  intro h
  have h2 := Real.sqrt_eq_zero'.mp h
  norm_num at h2

lemma spec_pop_txC6 :
    spec_z_scores_pop [100, 300] =
      [zval (-100) (some (Real.sqrt 10000)), zval 100 (some (Real.sqrt 10000))] := by
  simp only [spec_z_scores_pop, List.map_cons, List.map_nil, List.sum_cons, List.sum_nil,
    List.length_cons, List.length_nil]
  norm_num

/-- C6 counterexample: on monthly totals 100 and 300 the code's z-scores use
the sample standard deviation √20000 (divisor `n - 1 = 1`), whereas the
population standard deviation claimed by the spec is √10000 = 100; the
resulting z-score lists differ (±1/√2 versus ±1). -/
theorem C6_counterexample : z_scores txC6 ≠ spec_z_scores_pop (rev_amounts txC6) := by
  intro h
  rw [rev_amounts_txC6, spec_pop_txC6, z_scores, monthly_rev_txC6, std_rev_txC6,
    List.map_cons, List.map_cons, List.map_nil, mean_rev_txC6] at h
  have h300 : (300 : ℚ) - 200 = 100 := by norm_num
  rw [h300] at h
  have h2 := ((List.cons.injEq _ _ _ _).mp h).2
  have h3 := ((List.cons.injEq _ _ _ _).mp h2).1
  rw [zval_val _ _ sqrt20000_ne_zero, zval_val _ _ sqrt10000_ne_zero] at h3
  have h4 : ((100 : ℚ) : ℝ) / Real.sqrt 20000 = ((100 : ℚ) : ℝ) / Real.sqrt 10000 := by
    injection h3
  have h5 := (div_eq_div_iff sqrt20000_ne_zero sqrt10000_ne_zero).mp h4
  have h6 : Real.sqrt 10000 = Real.sqrt 20000 :=
    mul_left_cancel₀ (show ((100 : ℚ) : ℝ) ≠ 0 by norm_num) h5
  have h7 := (Real.sqrt_inj (by norm_num) (by norm_num)).mp h6
  norm_num at h7

/-- C6 amended: each month's z-score is `(amount - mean) / std` where `mean`
is the arithmetic mean and `std` the SAMPLE standard deviation (divisor
`n - 1`, pandas default, NaN when only one month exists) of the monthly
totals over all months present, with no look-back window or rolling
statistics. -/
theorem C6_amended (txs : List Transaction) :
    z_scores txs = spec_z_scores_sample (rev_amounts txs) := by
  rw [z_scores, spec_z_scores_sample]
  have hstd : std_rev txs =
      (if (rev_amounts txs).length ≤ 1 then none
       else some (Real.sqrt ((((rev_amounts txs).map (fun x =>
         (x - (rev_amounts txs).sum / ((rev_amounts txs).length : ℚ)) ^ 2)).sum /
         (((rev_amounts txs).length : ℚ) - 1) : ℚ) : ℝ))) := by
    rw [std_rev, var_rev]
    split <;> rfl
  rw [hstd, rev_amounts, List.map_map, List.map_map]
  rfl
